import Mathlib

set_option linter.unusedVariables false

/-
Shallow embedding of the authentication session manager in
`src/hooks/useAuth.ts` (the `useAuth` React hook).

Every state write (`setUser`, `setLoading`, ...), backend call, fixed
wait and persistent-storage operation of the source is recorded, in
program order, as an event in a trace; the React state record is the
left fold of that trace over an initial state.  Asynchronous backend
results are supplied by explicit oracle arguments, and the `mounted`
liveness flag is supplied as explicit boolean arguments giving its
value at each point where the source reads it.
-/

set_option maxHeartbeats 1000000 in
set_option maxHeartbeats 1000000 in
set_option maxHeartbeats 1000000 in
/-- The `connectionStatus` enumeration of the hook. -/
inductive ConnStatus where
  | checking
  | connected
  | disconnected
deriving DecidableEq

/-- The error taxonomy; each value tags one branch of `handleError`. -/
inductive ErrKind where
  | networkError
  | invalidCredentials
  | emailNotConfirmed
  | userAlreadyExists
  | permissionDenied
  | serverUnavailable
  | unknown
deriving DecidableEq

/-- A classified error: taxonomy kind plus the user-facing message
carried by the `Error` object `handleError` constructs. -/
structure ErrInfo where
  kind : ErrKind
  message : String
deriving DecidableEq

/-- A raw failure value as inspected by `handleError`: optional
`message`, `code` and HTTP `status` fields (absent fields model
`undefined`). -/
structure RawError where
  message : Option String
  code : Option String
  status : Option Int
deriving DecidableEq

/-- A user profile row, as selected from the `users` table. -/
structure UserProfile where
  id : String
  email : String
  fullName : String
  role : String
  currentPoints : Nat
  totalVisits : Nat
deriving DecidableEq

/-- The identity carried by a backend session (`session.user`). -/
structure SessionUser where
  id : String
deriving DecidableEq

/-- A backend session; `user` may be absent. -/
structure Session where
  user : Option SessionUser
deriving DecidableEq

/-- Labels naming each backend call site of the source. -/
inductive CallLabel where
  | getSession
  | authSignOut
  | authSignUp
  | insertProfile
  | signInWithPassword
  | resetPasswordForEmail
  | updateUser
  | selectProfile (id : String)
deriving DecidableEq

/-- One observable step of the hook: a state write, a storage write, a
backend call being issued (also the suspension point of its `await`),
or a fixed `setTimeout` wait. -/
inductive Ev where
  | setUser (u : Option UserProfile)
  | setLoading (b : Bool)
  | setIsResettingPassword (b : Bool)
  | setResetPasswordError (v : Option String)
  | setConnectionStatus (c : ConnStatus)
  | setLastError (i : Option ErrInfo)
  | storageSet (v : String)
  | storageRemove
  | call (c : CallLabel)
  | sleep (ms : Nat)
deriving DecidableEq

/-- The hook's state: the six `useState` fields plus the
`localStorage` cell under `nailbliss_remember_me`. -/
structure St where
  user : Option UserProfile
  loading : Bool
  isResettingPassword : Bool
  resetPasswordError : Option String
  connectionStatus : ConnStatus
  lastError : Option ErrInfo
  rememberStore : Option String
deriving DecidableEq

/-- State at mount: the `useState` initial values (`loading` starts
`true`, `connectionStatus` starts `checking`), empty storage. -/
def initialSt : St :=
  { user := none, loading := true, isResettingPassword := false,
    resetPasswordError := none, connectionStatus := .checking,
    lastError := none, rememberStore := none }

/-- Effect of one event on the state (calls and sleeps are pure). -/
def applyEv (s : St) : Ev → St
  | .setUser u => { s with user := u }
  | .setLoading b => { s with loading := b }
  | .setIsResettingPassword b => { s with isResettingPassword := b }
  | .setResetPasswordError v => { s with resetPasswordError := v }
  | .setConnectionStatus c => { s with connectionStatus := c }
  | .setLastError i => { s with lastError := i }
  | .storageSet v => { s with rememberStore := some v }
  | .storageRemove => { s with rememberStore := none }
  | .call _ => s
  | .sleep _ => s

/-- Running a trace from a state. -/
def runTrace (s : St) (t : List Ev) : St := t.foldl applyEv s

/-- Does `sub` occur at the head of the second list? (structural
helper for the JavaScript `String.prototype.includes` check). -/
def headMatches : List Char → List Char → Bool
  | [], _ => true
  | _ :: _, [] => false
  | a :: as, b :: bs => a == b && headMatches as bs

/-- Does `sub` occur anywhere in the second list? -/
def hasSub (sub : List Char) : List Char → Bool
  | [] => headMatches sub []
  | c :: rest => headMatches sub (c :: rest) || hasSub sub rest

/-- JavaScript `s.includes(sub)`. -/
def strContains (s sub : String) : Bool := hasSub sub.data s.data

/-- JavaScript `error?.message?.includes(sub)` coerced to boolean: an
absent message never matches. -/
def optMsgIncludes (e : RawError) (sub : String) : Bool :=
  match e.message with
  | some m => strContains m sub
  | none => false

/-- Condition of `handleError`'s first branch (also the network test
in `testConnection`): the message mentions `fetch` or `network`. -/
def msgHasNet (e : RawError) : Bool :=
  optMsgIncludes e "fetch" || optMsgIncludes e "network"

/-- Invalid-credentials condition of `handleError`. -/
def msgInvalidCred (e : RawError) : Bool :=
  optMsgIncludes e "Invalid login credentials" || e.code == some "invalid_credentials"

/-- Unconfirmed-email condition of `handleError`. -/
def msgNotConfirmed (e : RawError) : Bool :=
  optMsgIncludes e "Email not confirmed" || e.code == some "email_not_confirmed"

/-- Duplicate-registration condition of `handleError`. -/
def msgAlreadyReg (e : RawError) : Bool :=
  optMsgIncludes e "User already registered" || e.code == some "user_already_exists"

/-- Row-level-security / permission condition of `handleError`. -/
def msgRls (e : RawError) : Bool :=
  optMsgIncludes e "row-level security policy" || e.code == some "42501"

/-- `[500, 502, 503, 504].includes(error?.status)`. -/
def status5xx (e : RawError) : Bool :=
  match e.status with
  | some st => ([500, 502, 503, 504] : List Int).contains st
  | none => false

/-- Fallback text of `handleError`'s final branch. -/
def genericErrMsg : String := "An unexpected error occurred. Please try again."

/-- `handleError(error, operation)`: classifies a raw failure,
returning the trace of its state writes (`setConnectionStatus` for the
two network-ish kinds, then `setLastError`) together with the
classified error it returns.  Branches appear in source order;
first match wins. -/
def handleError (e : RawError) : List Ev × ErrInfo :=
  if msgHasNet e then
    let i : ErrInfo := ⟨.networkError,
      "Network connection failed. Please check your internet connection and try again."⟩
    ([Ev.setConnectionStatus .disconnected, Ev.setLastError (some i)], i)
  else if msgInvalidCred e then
    let i : ErrInfo := ⟨.invalidCredentials,
      "Invalid email or password. Please check your credentials and try again."⟩
    ([Ev.setLastError (some i)], i)
  else if msgNotConfirmed e then
    let i : ErrInfo := ⟨.emailNotConfirmed,
      "Please check your email and click the confirmation link before signing in."⟩
    ([Ev.setLastError (some i)], i)
  else if msgAlreadyReg e then
    let i : ErrInfo := ⟨.userAlreadyExists,
      "An account with this email already exists. Please sign in instead."⟩
    ([Ev.setLastError (some i)], i)
  else if msgRls e then
    let i : ErrInfo := ⟨.permissionDenied,
      "Account permissions issue. Please contact support if this persists."⟩
    ([Ev.setLastError (some i)], i)
  else if status5xx e then
    let i : ErrInfo := ⟨.serverUnavailable,
      "Our servers are temporarily unavailable. Please try again in a few minutes."⟩
    ([Ev.setConnectionStatus .disconnected, Ev.setLastError (some i)], i)
  else
    let i : ErrInfo := ⟨.unknown,
      match e.message with
      | some m => if m = "" then genericErrMsg else m
      | none => genericErrMsg⟩
    ([Ev.setLastError (some i)], i)

/-- Result of an awaited JavaScript promise: a value, or a rejection.
A rejection carries whether the thrown value is an `Error` instance
(`instanceof Error` is how the catch blocks decide between rethrowing
and classifying). -/
inductive JsRes (α : Type) where
  | val (a : α)
  | exnError (e : RawError)
  | exnOther (e : RawError)
deriving DecidableEq

/-- The `{ data: { session }, error }` payload of
`supabase.auth.getSession()`. -/
structure GetSessionRes where
  session : Option Session
  error : Option RawError
deriving DecidableEq

/-- `testConnection()`: sets `checking`, awaits `getSession`; a
network-classed error gives `disconnected`/`false`, anything else
(error or not) gives `connected`/`true`, and a rejection of the probe
itself is caught and gives `disconnected`/`false`. -/
def testConnection (o : JsRes GetSessionRes) : List Ev × Bool :=
  let hd := [Ev.setConnectionStatus .checking, Ev.call .getSession]
  match o with
  | .exnError _ => (hd ++ [Ev.setConnectionStatus .disconnected], false)
  | .exnOther _ => (hd ++ [Ev.setConnectionStatus .disconnected], false)
  | .val r =>
    match r.error with
    | some err =>
      if msgHasNet err then (hd ++ [Ev.setConnectionStatus .disconnected], false)
      else (hd ++ [Ev.setConnectionStatus .connected], true)
    | none => (hd ++ [Ev.setConnectionStatus .connected], true)

/-- Result of `fetchUserProfile`. -/
inductive FetchRes where
  | ok (u : UserProfile)
  | err (i : ErrInfo)
deriving DecidableEq

/-- The `{ data, error }` payload of the profile-row select. -/
structure SelectRes where
  data : Option UserProfile
  error : Option RawError
deriving DecidableEq

/-- `fetchUserProfile(userId)`: selects the row; a reported error or
an empty `data` throws the classified error (the outer catch only
rethrows `Error` instances, which both thrown values are). -/
def fetchUserProfile (uid : String) (o : SelectRes) : List Ev × FetchRes :=
  match o.error with
  | some err =>
    let he := handleError err
    (Ev.call (.selectProfile uid) :: he.1, .err he.2)
  | none =>
    match o.data with
    | none =>
      let he := handleError ⟨some "User profile data is empty", none, none⟩
      (Ev.call (.selectProfile uid) :: he.1, .err he.2)
    | some d => ([Ev.call (.selectProfile uid)], .ok d)

/-- The retry test of the event handler's inner catch:
`error.message?.includes('User profile not found') ||
error.message?.includes('0 rows')`. -/
def retryCond (i : ErrInfo) : Bool :=
  strContains i.message "User profile not found" || strContains i.message "0 rows"

/-- Backend results for the (at most two) profile selects an event
reaction can issue. -/
structure HandlerOracle where
  fetch1 : SelectRes
  fetch2 : SelectRes
deriving DecidableEq

/-- The `onAuthStateChange` handler.  `mounted` is the liveness flag's
value at entry — the only point where the source reads it; writes
after the awaited fetches are issued unconditionally.  The source's
outer catch is unreachable here: every failure of `fetchUserProfile`
is an `Error` instance already caught by the inner catch, and nothing
else in the body throws. -/
def onAuthChange (mounted : Bool) (event : String) (session : Option Session)
    (o : HandlerOracle) : List Ev :=
  if !mounted then []
  else if event = "SIGNED_OUT" then [Ev.setUser none, Ev.setLoading false]
  else if event = "PASSWORD_RECOVERY" then [Ev.setLoading false]
  else
    match session with
    | some ss =>
      match ss.user with
      | some u =>
        let pre := if event = "SIGNED_UP" then [Ev.sleep 1000] else []
        let f1 := fetchUserProfile u.id o.fetch1
        let body :=
          match f1.2 with
          | .ok d => f1.1 ++ [Ev.setUser (some d)]
          | .err i =>
            if retryCond i then
              let f2 := fetchUserProfile u.id o.fetch2
              match f2.2 with
              | .ok d => f1.1 ++ [Ev.sleep 2000] ++ f2.1 ++ [Ev.setUser (some d)]
              | .err _ => f1.1 ++ [Ev.sleep 2000] ++ f2.1 ++ [Ev.setUser none]
            else f1.1 ++ [Ev.setUser none]
        Ev.setLoading true :: (pre ++ body ++ [Ev.setLoading false])
      | none => [Ev.setUser none, Ev.setLoading false]
    | none => [Ev.setUser none, Ev.setLoading false]

/-- Backend results for one run of `initializeAuth`; unused fields are
simply never consulted on paths that return early. -/
structure BootOracle where
  probe : JsRes GetSessionRes
  signOutRes : JsRes Unit
  session : JsRes GetSessionRes
  fetchSel : SelectRes
deriving DecidableEq

/-- `initializeAuth()`.  `m1`..`m4` are the values of the `mounted`
flag at the four points where a resumed continuation reads it: after
the probe, after the forced sign-out, after the session lookup, and
after the profile fetch.  `remember0` is the stored
`nailbliss_remember_me` value at the time it is read.  Every early
`return` still runs the `finally` block, whose mounted-guarded
`setLoading(false)` appears as the trailing conditional write.
Rejections of the awaited calls land in the outer catch, which runs
`handleError`, clears the stored flag, and (when mounted) clears the
user. -/
def initAuth (m1 m2 m3 m4 : Bool) (remember0 : Option String) (o : BootOracle) : List Ev :=
  let tc := testConnection o.probe
  if tc.2 = false then
    tc.1 ++ (if m1 then [Ev.setLoading false] else [])
      ++ (if m1 then [Ev.setLoading false] else [])
  else if !(remember0 == some "true") then
    match o.signOutRes with
    | .val _ =>
      tc.1 ++ [Ev.call .authSignOut]
        ++ (if m2 then [Ev.setUser none, Ev.setLoading false] else [])
        ++ (if m2 then [Ev.setLoading false] else [])
    | .exnError e =>
      tc.1 ++ [Ev.call .authSignOut] ++ (handleError e).1 ++ [Ev.storageRemove]
        ++ (if m2 then [Ev.setUser none] else [])
        ++ (if m2 then [Ev.setLoading false] else [])
    | .exnOther e =>
      tc.1 ++ [Ev.call .authSignOut] ++ (handleError e).1 ++ [Ev.storageRemove]
        ++ (if m2 then [Ev.setUser none] else [])
        ++ (if m2 then [Ev.setLoading false] else [])
  else
    match o.session with
    | .exnError e =>
      tc.1 ++ [Ev.call .getSession] ++ (handleError e).1 ++ [Ev.storageRemove]
        ++ (if m3 then [Ev.setUser none] else [])
        ++ (if m3 then [Ev.setLoading false] else [])
    | .exnOther e =>
      tc.1 ++ [Ev.call .getSession] ++ (handleError e).1 ++ [Ev.storageRemove]
        ++ (if m3 then [Ev.setUser none] else [])
        ++ (if m3 then [Ev.setLoading false] else [])
    | .val r =>
      match r.error with
      | some err =>
        tc.1 ++ [Ev.call .getSession] ++ (handleError err).1 ++ [Ev.storageRemove]
          ++ (if m3 then [Ev.setLoading false] else [])
          ++ (if m3 then [Ev.setLoading false] else [])
      | none =>
        match r.session with
        | some ss =>
          match ss.user with
          | some u =>
            let f := fetchUserProfile u.id o.fetchSel
            match f.2 with
            | .ok d =>
              tc.1 ++ [Ev.call .getSession] ++ f.1
                ++ (if m4 then [Ev.setUser (some d)] else [])
                ++ (if m4 then [Ev.setLoading false] else [])
            | .err _ =>
              tc.1 ++ [Ev.call .getSession] ++ f.1
                ++ (if m4 then [Ev.setUser none] else [])
                ++ (if m4 then [Ev.setLoading false] else [])
          | none =>
            tc.1 ++ [Ev.call .getSession, Ev.storageRemove]
              ++ (if m3 then [Ev.setUser none] else [])
              ++ (if m3 then [Ev.setLoading false] else [])
        | none =>
          tc.1 ++ [Ev.call .getSession, Ev.storageRemove]
            ++ (if m3 then [Ev.setUser none] else [])
            ++ (if m3 then [Ev.setLoading false] else [])

/-- What a public action throws: a classified error produced by
`handleError`, or a rethrown raw `Error` instance. -/
inductive ThrownErr where
  | classified (i : ErrInfo)
  | rawInstance (e : RawError)
deriving DecidableEq

/-- Settled outcome of a public action. -/
inductive ActionRes where
  | ok
  | thrown (t : ThrownErr)
deriving DecidableEq

/-- The shared catch block
`setLoading(false); if (error instanceof Error) throw error;
throw handleError(error, op)` applied to a promise rejection. -/
def rejectCatch (isErrorInstance : Bool) (e : RawError) : List Ev × ActionRes :=
  if isErrorInstance then ([Ev.setLoading false], .thrown (.rawInstance e))
  else (Ev.setLoading false :: (handleError e).1, .thrown (.classified (handleError e).2))

/-- The `{ data: { user }, error }` payload of `supabase.auth.signUp`. -/
structure SignUpData where
  user : Option SessionUser
  error : Option RawError
deriving DecidableEq

/-- Backend results for one `signUp` run. -/
structure SignUpOracle where
  probe : JsRes GetSessionRes
  signUpRes : JsRes SignUpData
  insertRes : JsRes (Option RawError)
deriving DecidableEq

/-- `signUp(email, password, fullName, role, rememberMe)`.  The
credential and profile arguments only feed the backend calls, so only
`rememberMe` (which decides the storage write) is kept. -/
def signUp (rememberMe : Bool) (o : SignUpOracle) : List Ev × ActionRes :=
  let entry := [Ev.setLoading true, Ev.setLastError none]
  let tc := testConnection o.probe
  if tc.2 = false then
    let he := handleError ⟨some "Unable to connect to authentication service", none, none⟩
    (entry ++ tc.1 ++ he.1 ++ [Ev.setLoading false], .thrown (.classified he.2))
  else
    match o.signUpRes with
    | .exnError e =>
      let c := rejectCatch true e
      (entry ++ tc.1 ++ [Ev.call .authSignUp] ++ c.1, c.2)
    | .exnOther e =>
      let c := rejectCatch false e
      (entry ++ tc.1 ++ [Ev.call .authSignUp] ++ c.1, c.2)
    | .val r =>
      match r.error with
      | some err =>
        let he := handleError err
        (entry ++ tc.1 ++ [Ev.call .authSignUp] ++ he.1 ++ [Ev.setLoading false],
          .thrown (.classified he.2))
      | none =>
        match r.user with
        | none =>
          let he := handleError ⟨some "User creation failed - no user data returned", none, none⟩
          (entry ++ tc.1 ++ [Ev.call .authSignUp] ++ he.1 ++ [Ev.setLoading false],
            .thrown (.classified he.2))
        | some _ =>
          match o.insertRes with
          | .exnError e =>
            let c := rejectCatch true e
            (entry ++ tc.1 ++ [Ev.call .authSignUp, Ev.sleep 500, Ev.call .insertProfile]
              ++ c.1, c.2)
          | .exnOther e =>
            let c := rejectCatch false e
            (entry ++ tc.1 ++ [Ev.call .authSignUp, Ev.sleep 500, Ev.call .insertProfile]
              ++ c.1, c.2)
          | .val pe =>
            match pe with
            | some perr =>
              let he := handleError perr
              (entry ++ tc.1 ++ [Ev.call .authSignUp, Ev.sleep 500, Ev.call .insertProfile]
                ++ he.1 ++ [Ev.setLoading false], .thrown (.classified he.2))
            | none =>
              (entry ++ tc.1 ++ [Ev.call .authSignUp, Ev.sleep 500, Ev.call .insertProfile]
                ++ (if rememberMe then [Ev.storageSet "true"] else [Ev.storageRemove])
                ++ [Ev.setLoading false], .ok)

/-- Backend results for one `signIn` run. -/
structure SignInOracle where
  probe : JsRes GetSessionRes
  signInRes : JsRes (Option RawError)
deriving DecidableEq

/-- `signIn(email, password, rememberMe)`. -/
def signIn (rememberMe : Bool) (o : SignInOracle) : List Ev × ActionRes :=
  let entry := [Ev.setLoading true, Ev.setLastError none]
  let tc := testConnection o.probe
  if tc.2 = false then
    let he := handleError ⟨some "Unable to connect to authentication service", none, none⟩
    (entry ++ tc.1 ++ he.1 ++ [Ev.setLoading false], .thrown (.classified he.2))
  else
    match o.signInRes with
    | .exnError e =>
      let c := rejectCatch true e
      (entry ++ tc.1 ++ [Ev.call .signInWithPassword] ++ c.1, c.2)
    | .exnOther e =>
      let c := rejectCatch false e
      (entry ++ tc.1 ++ [Ev.call .signInWithPassword] ++ c.1, c.2)
    | .val (some err) =>
      let he := handleError err
      (entry ++ tc.1 ++ [Ev.call .signInWithPassword] ++ he.1 ++ [Ev.setLoading false],
        .thrown (.classified he.2))
    | .val none =>
      (entry ++ tc.1 ++ [Ev.call .signInWithPassword]
        ++ (if rememberMe then [Ev.storageSet "true"] else [Ev.storageRemove])
        ++ [Ev.setLoading false], .ok)

/-- `signOut()`. -/
def signOut (o : JsRes (Option RawError)) : List Ev × ActionRes :=
  let entry := [Ev.setLoading true, Ev.setLastError none]
  match o with
  | .exnError e =>
    let c := rejectCatch true e
    (entry ++ [Ev.call .authSignOut] ++ c.1, c.2)
  | .exnOther e =>
    let c := rejectCatch false e
    (entry ++ [Ev.call .authSignOut] ++ c.1, c.2)
  | .val (some err) =>
    let he := handleError err
    (entry ++ [Ev.call .authSignOut] ++ he.1 ++ [Ev.setLoading false],
      .thrown (.classified he.2))
  | .val none =>
    (entry ++ [Ev.call .authSignOut, Ev.storageRemove, Ev.setUser none, Ev.setLoading false],
      .ok)

/-- `updatePassword(password)`. -/
def updatePassword (o : JsRes (Option RawError)) : List Ev × ActionRes :=
  let entry := [Ev.setLoading true, Ev.setLastError none]
  match o with
  | .exnError e =>
    let c := rejectCatch true e
    (entry ++ [Ev.call .updateUser] ++ c.1, c.2)
  | .exnOther e =>
    let c := rejectCatch false e
    (entry ++ [Ev.call .updateUser] ++ c.1, c.2)
  | .val (some err) =>
    let he := handleError err
    (entry ++ [Ev.call .updateUser] ++ he.1 ++ [Ev.setLoading false],
      .thrown (.classified he.2))
  | .val none => (entry ++ [Ev.call .updateUser, Ev.setLoading false], .ok)

/-- Backend results for one `resetPassword` run. -/
structure ResetOracle where
  probe : JsRes GetSessionRes
  resetRes : JsRes (Option RawError)
deriving DecidableEq

/-- `resetPassword(email)`.  Its catch differs from the shared one: it
resets `isResettingPassword`, classifies only non-`Error` values, and
records the resulting message into `resetPasswordError` before
rethrowing. -/
def resetPassword (o : ResetOracle) : List Ev × ActionRes :=
  let entry := [Ev.setIsResettingPassword true, Ev.setResetPasswordError none,
    Ev.setLastError none]
  let tc := testConnection o.probe
  if tc.2 = false then
    let he := handleError ⟨some "Unable to connect to authentication service", none, none⟩
    (entry ++ tc.1 ++ he.1
      ++ [Ev.setIsResettingPassword false, Ev.setResetPasswordError (some he.2.message)],
      .thrown (.classified he.2))
  else
    match o.resetRes with
    | .exnError e =>
      (entry ++ tc.1 ++ [Ev.call .resetPasswordForEmail]
        ++ [Ev.setIsResettingPassword false,
            Ev.setResetPasswordError (some (e.message.getD ""))],
        .thrown (.rawInstance e))
    | .exnOther e =>
      let he := handleError e
      (entry ++ tc.1 ++ [Ev.call .resetPasswordForEmail]
        ++ Ev.setIsResettingPassword false :: he.1
        ++ [Ev.setResetPasswordError (some he.2.message)],
        .thrown (.classified he.2))
    | .val (some err) =>
      let he := handleError err
      (entry ++ tc.1 ++ [Ev.call .resetPasswordForEmail] ++ he.1
        ++ [Ev.setIsResettingPassword false, Ev.setResetPasswordError (some he.2.message)],
        .thrown (.classified he.2))
    | .val none =>
      (entry ++ tc.1 ++ [Ev.call .resetPasswordForEmail, Ev.setIsResettingPassword false],
        .ok)

/-- Is this event a backend call? -/
def isCallEv : Ev → Bool
  | .call _ => true
  | _ => false

/-- Is this event a persistent-storage write? -/
def isStorageEv : Ev → Bool
  | .storageSet _ => true
  | .storageRemove => true
  | _ => false

/-- Is this event a write to one of the six React state fields? -/
def isStateWrite : Ev → Bool
  | .setUser _ => true
  | .setLoading _ => true
  | .setIsResettingPassword _ => true
  | .setResetPasswordError _ => true
  | .setConnectionStatus _ => true
  | .setLastError _ => true
  | _ => false

/-- Is this event a `setUser` or `setLoading` write (the two kinds the
bootstrap guards with `mounted`)? -/
def isUserOrLoadingWrite : Ev → Bool
  | .setUser _ => true
  | .setLoading _ => true
  | _ => false

/-- Number of profile selects issued in a trace. -/
def countFetchCalls : List Ev → Nat
  | [] => 0
  | .call (.selectProfile _) :: t => countFetchCalls t + 1
  | _ :: t => countFetchCalls t

/-
Helper lemmas about traces.
-/

theorem runTrace_append (s : St) (t1 t2 : List Ev) :
    runTrace s (t1 ++ t2) = runTrace (runTrace s t1) t2 := by
  simp [runTrace, List.foldl_append]

theorem handleError_run (s : St) (e : RawError) :
    runTrace s (handleError e).1 =
      { s with
        lastError := some (handleError e).2,
        connectionStatus :=
          if (handleError e).2.kind = .networkError ∨ (handleError e).2.kind = .serverUnavailable
          then .disconnected else s.connectionStatus } := by
  cases s
  unfold handleError
  repeat' split
  all_goals simp_all [runTrace, applyEv]

theorem handleError_filterCall (e : RawError) :
    (handleError e).1.filter isCallEv = [] := by
  unfold handleError
  repeat' split
  all_goals simp [isCallEv]

theorem handleError_filterStorage (e : RawError) :
    (handleError e).1.filter isStorageEv = [] := by
  unfold handleError
  repeat' split
  all_goals simp [isStorageEv]

theorem handleError_filterUserLoading (e : RawError) :
    (handleError e).1.filter isUserOrLoadingWrite = [] := by
  unfold handleError
  repeat' split
  all_goals simp [isUserOrLoadingWrite]

theorem handleError_countFetch (e : RawError) :
    countFetchCalls (handleError e).1 = 0 := by
  unfold handleError
  repeat' split
  all_goals simp [countFetchCalls]

theorem testConnection_eq (o : JsRes GetSessionRes) :
    testConnection o =
      ([Ev.setConnectionStatus .checking, Ev.call .getSession,
        Ev.setConnectionStatus (if (testConnection o).2 then .connected else .disconnected)],
       (testConnection o).2) := by
  unfold testConnection
  rcases o with r | e | e
  · rcases r with ⟨ss, er⟩
    rcases er with _ | err
    · rfl
    · dsimp only
      split
      · rfl
      · rfl
  · rfl
  · rfl

theorem testConnection_filterCall (o : JsRes GetSessionRes) :
    (testConnection o).1.filter isCallEv = [Ev.call .getSession] := by
  rw [testConnection_eq o]
  simp [isCallEv]

theorem testConnection_filterStorage (o : JsRes GetSessionRes) :
    (testConnection o).1.filter isStorageEv = [] := by
  rw [testConnection_eq o]
  simp [isStorageEv]

theorem testConnection_filterUserLoading (o : JsRes GetSessionRes) :
    (testConnection o).1.filter isUserOrLoadingWrite = [] := by
  rw [testConnection_eq o]
  simp [isUserOrLoadingWrite]

theorem testConnection_countFetch (o : JsRes GetSessionRes) :
    countFetchCalls (testConnection o).1 = 0 := by
  rw [testConnection_eq o]
  simp [countFetchCalls]

theorem fetchUserProfile_filterCall (uid : String) (o : SelectRes) :
    (fetchUserProfile uid o).1.filter isCallEv = [Ev.call (.selectProfile uid)] := by
  unfold fetchUserProfile
  repeat' split
  all_goals simp [isCallEv, handleError_filterCall]

theorem fetchUserProfile_filterStorage (uid : String) (o : SelectRes) :
    (fetchUserProfile uid o).1.filter isStorageEv = [] := by
  unfold fetchUserProfile
  repeat' split
  all_goals simp [isStorageEv, handleError_filterStorage]

theorem fetchUserProfile_filterUserLoading (uid : String) (o : SelectRes) :
    (fetchUserProfile uid o).1.filter isUserOrLoadingWrite = [] := by
  unfold fetchUserProfile
  repeat' split
  all_goals simp [isUserOrLoadingWrite, handleError_filterUserLoading]

theorem countFetchCalls_cons_select (uid : String) (t : List Ev) :
    countFetchCalls (Ev.call (.selectProfile uid) :: t) = countFetchCalls t + 1 := by
  simp [countFetchCalls]

theorem fetchUserProfile_countFetch (uid : String) (o : SelectRes) :
    countFetchCalls (fetchUserProfile uid o).1 = 1 := by
  unfold fetchUserProfile
  repeat' split
  all_goals rw [countFetchCalls_cons_select]
  all_goals first
    | rw [handleError_countFetch]
    | rfl

theorem countFetchCalls_append (a b : List Ev) :
    countFetchCalls (a ++ b) = countFetchCalls a + countFetchCalls b := by
  induction a with
  | nil => simp [countFetchCalls]
  | cons x t ih =>
    rcases x with u | b2 | b3 | v | c | i | v2 | _ | cl | ms <;>
      try simp [countFetchCalls, ih]
    rcases cl with _ | _ | _ | _ | _ | _ | _ | uid <;> simp [countFetchCalls, ih] <;> omega

theorem applyEv_userloading (s : St) (x : Ev) (h : isUserOrLoadingWrite x = false) :
    (applyEv s x).user = s.user ∧ (applyEv s x).loading = s.loading := by
  cases x <;> simp_all [isUserOrLoadingWrite, applyEv]

theorem runTrace_userloading (t : List Ev) (h : t.filter isUserOrLoadingWrite = []) (s : St) :
    (runTrace s t).user = s.user ∧ (runTrace s t).loading = s.loading := by
  induction t generalizing s with
  | nil => exact ⟨rfl, rfl⟩
  | cons x xs ih =>
    rw [List.filter_cons] at h
    split at h
    · simp at h
    · rename_i hx
      simp only [Bool.not_eq_true] at hx
      have hs := applyEv_userloading s x hx
      have hr : runTrace s (x :: xs) = runTrace (applyEv s x) xs := rfl
      rw [hr]
      have := ih h (applyEv s x)
      exact ⟨this.1.trans hs.1, this.2.trans hs.2⟩

theorem runTrace_loading_setFalse (s : St) (t : List Ev) :
    (runTrace s (t ++ [Ev.setLoading false])).loading = false := by
  rw [runTrace_append]; rfl

theorem runTrace_loading_setFalse_handle (s : St) (t : List Ev) (e : RawError) :
    (runTrace s (t ++ Ev.setLoading false :: (handleError e).1)).loading = false := by
  have h : t ++ Ev.setLoading false :: (handleError e).1
      = (t ++ [Ev.setLoading false]) ++ (handleError e).1 := by simp
  rw [h, runTrace_append, handleError_run]
  simp [runTrace_loading_setFalse]

theorem signUp_loading (rm : Bool) (o : SignUpOracle) (s : St) :
    (runTrace s (signUp rm o).1).loading = false := by
  simp only [signUp, rejectCatch]
  repeat' split
  all_goals first
    | apply runTrace_loading_setFalse
    | apply runTrace_loading_setFalse_handle
    | simp [runTrace, applyEv]
    | simp_all

theorem signIn_loading (rm : Bool) (o : SignInOracle) (s : St) :
    (runTrace s (signIn rm o).1).loading = false := by
  simp only [signIn, rejectCatch]
  repeat' split
  all_goals first
    | apply runTrace_loading_setFalse
    | apply runTrace_loading_setFalse_handle
    | simp [runTrace, applyEv]
    | simp_all

theorem signOut_loading (o : JsRes (Option RawError)) (s : St) :
    (runTrace s (signOut o).1).loading = false := by
  simp only [signOut, rejectCatch]
  repeat' split
  all_goals first
    | apply runTrace_loading_setFalse
    | apply runTrace_loading_setFalse_handle
    | simp [runTrace, applyEv]
    | simp_all

theorem updatePassword_loading (o : JsRes (Option RawError)) (s : St) :
    (runTrace s (updatePassword o).1).loading = false := by
  simp only [updatePassword, rejectCatch]
  repeat' split
  all_goals first
    | apply runTrace_loading_setFalse
    | apply runTrace_loading_setFalse_handle
    | simp [runTrace, applyEv]
    | simp_all

theorem runTrace_irp_pair (s : St) (t : List Ev) (v : Option String) :
    (runTrace s (t ++ [Ev.setIsResettingPassword false, Ev.setResetPasswordError v])).isResettingPassword
      = false := by
  rw [runTrace_append]; rfl

theorem runTrace_irp_end (s : St) (t : List Ev) :
    (runTrace s (t ++ [Ev.call .resetPasswordForEmail, Ev.setIsResettingPassword false])).isResettingPassword
      = false := by
  rw [runTrace_append]; rfl

theorem runTrace_irp_handle (s : St) (t : List Ev) (e : RawError) (v : Option String) :
    (runTrace s ((t ++ Ev.setIsResettingPassword false :: (handleError e).1)
      ++ [Ev.setResetPasswordError v])).isResettingPassword = false := by
  have h : t ++ Ev.setIsResettingPassword false :: (handleError e).1
      = (t ++ [Ev.setIsResettingPassword false]) ++ (handleError e).1 := by simp
  rw [h, runTrace_append, runTrace_append, handleError_run]
  simp [runTrace_append, runTrace, applyEv]

theorem resetPassword_flag (o : ResetOracle) (s : St) :
    (runTrace s (resetPassword o).1).isResettingPassword = false := by
  simp only [resetPassword]
  repeat' split
  all_goals first
    | apply runTrace_irp_pair
    | apply runTrace_irp_end
    | apply runTrace_irp_handle
    | simp_all

theorem initAuth_loading (r : Option String) (o : BootOracle) (s : St) :
    (runTrace s (initAuth true true true true r o)).loading = false := by
  simp only [initAuth]
  repeat' split
  all_goals first
    | apply runTrace_loading_setFalse
    | simp_all

theorem applyEv_store (s : St) (x : Ev) (h : isStorageEv x = false) :
    (applyEv s x).rememberStore = s.rememberStore := by
  cases x <;> simp_all [isStorageEv, applyEv]

theorem runTrace_store (t : List Ev) (h : t.filter isStorageEv = []) (s : St) :
    (runTrace s t).rememberStore = s.rememberStore := by
  induction t generalizing s with
  | nil => rfl
  | cons x xs ih =>
    rw [List.filter_cons] at h
    split at h
    · simp at h
    · rename_i hx
      simp only [Bool.not_eq_true] at hx
      have hs := applyEv_store s x hx
      have hr : runTrace s (x :: xs) = runTrace (applyEv s x) xs := rfl
      rw [hr]
      exact (ih h (applyEv s x)).trans hs


/-
Claim theorems.
-/

/-- C4: every public action (signUp, signIn, signOut, updatePassword)
leaves `loading = false` once it settles, on success, classified
failure and rejection paths alike; `resetPassword` analogously leaves
`isResettingPassword = false` on every exit path; and a bootstrap run
that stays mounted throughout leaves `loading = false` on every exit
path. -/
theorem loadingSettles (rm rm2 : Bool) (o1 : SignUpOracle) (o2 : SignInOracle)
    (o3 o4 : JsRes (Option RawError)) (o5 : ResetOracle)
    (r : Option String) (bo : BootOracle) (s : St) :
    (runTrace s (signUp rm o1).1).loading = false
  ∧ (runTrace s (signIn rm2 o2).1).loading = false
  ∧ (runTrace s (signOut o3).1).loading = false
  ∧ (runTrace s (updatePassword o4).1).loading = false
  ∧ (runTrace s (resetPassword o5).1).isResettingPassword = false
  ∧ (runTrace s (initAuth true true true true r bo)).loading = false :=
  ⟨signUp_loading rm o1 s, signIn_loading rm2 o2 s, signOut_loading o3 s,
   updatePassword_loading o4 s, resetPassword_flag o5 s, initAuth_loading r bo s⟩

/-- C8: a `PASSWORD_RECOVERY` event reaching a mounted handler emits
exactly one `setLoading(false)` write: the resulting state differs
only in `loading`, every other field is untouched, and no profile
fetch is issued for that event. -/
theorem passwordRecoveryFrame (ss : Option Session) (ho : HandlerOracle) (s : St) :
    onAuthChange true "PASSWORD_RECOVERY" ss ho = [Ev.setLoading false]
  ∧ runTrace s (onAuthChange true "PASSWORD_RECOVERY" ss ho) = { s with loading := false }
  ∧ countFetchCalls (onAuthChange true "PASSWORD_RECOVERY" ss ho) = 0 := by
  have h : onAuthChange true "PASSWORD_RECOVERY" ss ho = [Ev.setLoading false] := by
    unfold onAuthChange
    rw [if_neg (by decide), if_neg (by decide), if_pos rfl]
  refine ⟨h, ?_, ?_⟩ <;> rw [h] <;> rfl

/-- C10: all five public actions synchronously write
`setLastError(null)` as their second state write at entry (after the
optimistic `loading` / `isResettingPassword` write and, for
`resetPassword`, after clearing `resetPasswordError`), so the clear
precedes every backend call of the trace, which can only occur at
index two or later. -/
theorem clearLastErrorAtEntry (rm rm2 : Bool) (o1 : SignUpOracle) (o2 : SignInOracle)
    (o3 o4 : JsRes (Option RawError)) (o5 : ResetOracle) :
    (signUp rm o1).1.take 2 = [Ev.setLoading true, Ev.setLastError none]
  ∧ (signIn rm2 o2).1.take 2 = [Ev.setLoading true, Ev.setLastError none]
  ∧ (signOut o3).1.take 2 = [Ev.setLoading true, Ev.setLastError none]
  ∧ (updatePassword o4).1.take 2 = [Ev.setLoading true, Ev.setLastError none]
  ∧ (resetPassword o5).1.take 3 =
      [Ev.setIsResettingPassword true, Ev.setResetPasswordError none, Ev.setLastError none] := by
  refine ⟨?_, ?_, ?_, ?_, ?_⟩
  · simp only [signUp, rejectCatch]
    repeat' split
    all_goals rfl
  · simp only [signIn, rejectCatch]
    repeat' split
    all_goals rfl
  · simp only [signOut, rejectCatch]
    repeat' split
    all_goals rfl
  · simp only [updatePassword, rejectCatch]
    repeat' split
    all_goals rfl
  · simp only [resetPassword]
    repeat' split
    all_goals rfl

/-- C1 (counterexample): the handler reads the liveness flag only at
entry, so a teardown while its profile fetch is in flight suppresses
nothing: the reaction trace for a `SIGNED_IN` event (fetch issued at
trace index 1, the suspension point) still performs state writes
after that point, and the final state differs from the snapshot taken
when the fetch was issued — `user` and `loading` both change. -/
theorem teardownWrite_cex :
    (onAuthChange true "SIGNED_IN" (some ⟨some ⟨"u1"⟩⟩)
        ⟨⟨some ⟨"u1", "a@b.com", "Jane", "customer", 0, 0⟩, none⟩, ⟨none, none⟩⟩ =
      [Ev.setLoading true, Ev.call (.selectProfile "u1"),
       Ev.setUser (some ⟨"u1", "a@b.com", "Jane", "customer", 0, 0⟩), Ev.setLoading false])
  ∧ ((onAuthChange true "SIGNED_IN" (some ⟨some ⟨"u1"⟩⟩)
        ⟨⟨some ⟨"u1", "a@b.com", "Jane", "customer", 0, 0⟩, none⟩, ⟨none, none⟩⟩).drop 2).any
        isStateWrite = true
  ∧ runTrace initialSt (onAuthChange true "SIGNED_IN" (some ⟨some ⟨"u1"⟩⟩)
        ⟨⟨some ⟨"u1", "a@b.com", "Jane", "customer", 0, 0⟩, none⟩, ⟨none, none⟩⟩)
      ≠ runTrace initialSt ((onAuthChange true "SIGNED_IN" (some ⟨some ⟨"u1"⟩⟩)
        ⟨⟨some ⟨"u1", "a@b.com", "Jane", "customer", 0, 0⟩, none⟩, ⟨none, none⟩⟩).take 2) := by
  decide

/-- C1 (amended): what the mounted guard actually suppresses.  A
handler invocation that finds the flag already false writes nothing;
and a bootstrap run torn down before any of its continuations resumes
performs no `setUser`/`setLoading` write — those are the only guarded
writes, whereas the `setConnectionStatus`/`setLastError` writes of the
probe and the classifier still occur, and a handler reaction already
past its entry check completes all its writes. -/
theorem teardownWrites_amended (r : Option String) (bo : BootOracle)
    (ev : String) (ss : Option Session) (ho : HandlerOracle) :
    (initAuth false false false false r bo).filter isUserOrLoadingWrite = []
  ∧ onAuthChange false ev ss ho = [] := by
  constructor
  · simp only [initAuth]
    repeat' split
    all_goals simp_all [List.filter_append, testConnection_filterUserLoading,
      handleError_filterUserLoading, fetchUserProfile_filterUserLoading, isUserOrLoadingWrite]
  · unfold onAuthChange
    rw [if_pos (by decide)]

/-- C2 (counterexample): the single bounded retry is not restricted to
the post-sign-up event: a `SIGNED_IN` event (not `SIGNED_UP`) whose
first profile fetch fails with a message containing `0 rows` also
triggers the 2000ms wait and a second fetch — the retry condition
inspects only the failure message, never the event. -/
theorem retryEvent_cex :
    countFetchCalls (onAuthChange true "SIGNED_IN" (some ⟨some ⟨"u2"⟩⟩)
      ⟨⟨none, some ⟨some "Results contain 0 rows", none, none⟩⟩,
       ⟨none, some ⟨some "Results contain 0 rows", none, none⟩⟩⟩) = 2
  ∧ Ev.sleep 2000 ∈ onAuthChange true "SIGNED_IN" (some ⟨some ⟨"u2"⟩⟩)
      ⟨⟨none, some ⟨some "Results contain 0 rows", none, none⟩⟩,
       ⟨none, some ⟨some "Results contain 0 rows", none, none⟩⟩⟩
  ∧ ("SIGNED_IN" = "SIGNED_UP") = False := by
  refine ⟨by decide, by decide, by simp⟩

/-- C3 (counterexample): when the connection probe fails, `signUp`
does throw before any backend auth call and `connectionStatus` ends
`disconnected`, but the thrown error is classified `Unknown` (message
`Unable to connect to authentication service` matches no classifier
branch), not `NetworkError` as the claim states. -/
theorem probeFailKind_cex :
    (signUp false ⟨.exnOther ⟨none, none, none⟩, .val ⟨none, none⟩, .val none⟩).2 =
      .thrown (.classified ⟨.unknown, "Unable to connect to authentication service"⟩)
  ∧ (signUp false ⟨.exnOther ⟨none, none, none⟩, .val ⟨none, none⟩, .val none⟩).1.filter
      isCallEv = [Ev.call .getSession]
  ∧ (runTrace initialSt
      (signUp false ⟨.exnOther ⟨none, none, none⟩, .val ⟨none, none⟩, .val none⟩).1).connectionStatus
      = .disconnected
  ∧ (ErrKind.unknown = ErrKind.networkError) = False := by
  refine ⟨by decide, by decide, by decide, by simp⟩

theorem runTrace_cons (s : St) (x : Ev) (t : List Ev) :
    runTrace s (x :: t) = runTrace (applyEv s x) t := rfl

theorem runTrace_nil (s : St) : runTrace s [] = s := rfl

theorem countFetchCalls_pre (ev : String) :
    countFetchCalls (if ev = "SIGNED_UP" then [Ev.sleep 1000] else []) = 0 := by
  split <;> rfl

theorem runTrace_user_endpair (s : St) (t : List Ev) (u : Option UserProfile) :
    (runTrace s ((t ++ [Ev.setUser u]) ++ [Ev.setLoading false])).user = u := by
  rw [runTrace_append, runTrace_append]; rfl

theorem onAuthChange_fetch_ok (ev : String) (su : SessionUser) (o : HandlerOracle)
    (d : UserProfile) (h1 : ev ≠ "SIGNED_OUT") (h2 : ev ≠ "PASSWORD_RECOVERY")
    (hf : (fetchUserProfile su.id o.fetch1).2 = .ok d) :
    onAuthChange true ev (some ⟨some su⟩) o =
      Ev.setLoading true ::
        ((if ev = "SIGNED_UP" then [Ev.sleep 1000] else []) ++
          ((fetchUserProfile su.id o.fetch1).1 ++ [Ev.setUser (some d)]) ++
          [Ev.setLoading false]) := by
  unfold onAuthChange
  rw [if_neg (by decide), if_neg h1, if_neg h2]
  dsimp only
  rw [hf]

theorem onAuthChange_fetch_err_retry_ok (ev : String) (su : SessionUser) (o : HandlerOracle)
    (i : ErrInfo) (d : UserProfile) (h1 : ev ≠ "SIGNED_OUT") (h2 : ev ≠ "PASSWORD_RECOVERY")
    (hf : (fetchUserProfile su.id o.fetch1).2 = .err i) (hr : retryCond i = true)
    (hf2 : (fetchUserProfile su.id o.fetch2).2 = .ok d) :
    onAuthChange true ev (some ⟨some su⟩) o =
      Ev.setLoading true ::
        ((if ev = "SIGNED_UP" then [Ev.sleep 1000] else []) ++
          ((fetchUserProfile su.id o.fetch1).1 ++ [Ev.sleep 2000] ++
            (fetchUserProfile su.id o.fetch2).1 ++ [Ev.setUser (some d)]) ++
          [Ev.setLoading false]) := by
  unfold onAuthChange
  rw [if_neg (by decide), if_neg h1, if_neg h2]
  dsimp only
  rw [hf]
  dsimp only
  rw [if_pos hr, hf2]

theorem onAuthChange_fetch_err_retry_err (ev : String) (su : SessionUser) (o : HandlerOracle)
    (i j : ErrInfo) (h1 : ev ≠ "SIGNED_OUT") (h2 : ev ≠ "PASSWORD_RECOVERY")
    (hf : (fetchUserProfile su.id o.fetch1).2 = .err i) (hr : retryCond i = true)
    (hf2 : (fetchUserProfile su.id o.fetch2).2 = .err j) :
    onAuthChange true ev (some ⟨some su⟩) o =
      Ev.setLoading true ::
        ((if ev = "SIGNED_UP" then [Ev.sleep 1000] else []) ++
          ((fetchUserProfile su.id o.fetch1).1 ++ [Ev.sleep 2000] ++
            (fetchUserProfile su.id o.fetch2).1 ++ [Ev.setUser none]) ++
          [Ev.setLoading false]) := by
  unfold onAuthChange
  rw [if_neg (by decide), if_neg h1, if_neg h2]
  dsimp only
  rw [hf]
  dsimp only
  rw [if_pos hr, hf2]

theorem onAuthChange_fetch_err_noretry (ev : String) (su : SessionUser) (o : HandlerOracle)
    (i : ErrInfo) (h1 : ev ≠ "SIGNED_OUT") (h2 : ev ≠ "PASSWORD_RECOVERY")
    (hf : (fetchUserProfile su.id o.fetch1).2 = .err i) (hr : retryCond i = false) :
    onAuthChange true ev (some ⟨some su⟩) o =
      Ev.setLoading true ::
        ((if ev = "SIGNED_UP" then [Ev.sleep 1000] else []) ++
          ((fetchUserProfile su.id o.fetch1).1 ++ [Ev.setUser none]) ++
          [Ev.setLoading false]) := by
  unfold onAuthChange
  rw [if_neg (by decide), if_neg h1, if_neg h2]
  dsimp only
  rw [hf]
  dsimp only
  rw [if_neg (show ¬(retryCond i = true) from fun hcontra => by
    rw [hr] at hcontra; exact Bool.false_ne_true hcontra)]

/-- C2 (amended): for an event reaction on any session-carrying event
(not only post-sign-up), the event reactor issues at most two profile
fetches; the second fetch (preceded by the fixed 2000ms wait) happens
exactly when the first fetch failed with a classified message matching
the profile-not-found test; a failure of any other kind sets
`user = null` immediately with no retry; a second failure also ends in
`user = null` with no further attempt; and `loading` is false once the
branch resolves, in every case. -/
theorem retryPolicy_amended (ev : String) (su : SessionUser) (o : HandlerOracle) (s : St)
    (h1 : ev ≠ "SIGNED_OUT") (h2 : ev ≠ "PASSWORD_RECOVERY") :
    countFetchCalls (onAuthChange true ev (some ⟨some su⟩) o) ≤ 2
  ∧ ((∃ i, (fetchUserProfile su.id o.fetch1).2 = .err i ∧ retryCond i = true) ↔
      countFetchCalls (onAuthChange true ev (some ⟨some su⟩) o) = 2)
  ∧ (countFetchCalls (onAuthChange true ev (some ⟨some su⟩) o) = 2 →
      Ev.sleep 2000 ∈ onAuthChange true ev (some ⟨some su⟩) o)
  ∧ (∀ i, (fetchUserProfile su.id o.fetch1).2 = .err i → retryCond i = false →
      countFetchCalls (onAuthChange true ev (some ⟨some su⟩) o) = 1
      ∧ (runTrace s (onAuthChange true ev (some ⟨some su⟩) o)).user = none)
  ∧ (∀ i j, (fetchUserProfile su.id o.fetch1).2 = .err i → retryCond i = true →
      (fetchUserProfile su.id o.fetch2).2 = .err j →
      (runTrace s (onAuthChange true ev (some ⟨some su⟩) o)).user = none)
  ∧ (runTrace s (onAuthChange true ev (some ⟨some su⟩) o)).loading = false := by
  rcases hf1 : (fetchUserProfile su.id o.fetch1).2 with d | i
  · have hT := onAuthChange_fetch_ok ev su o d h1 h2 hf1
    rw [hT]
    have hc : countFetchCalls (Ev.setLoading true ::
        ((if ev = "SIGNED_UP" then [Ev.sleep 1000] else []) ++
          ((fetchUserProfile su.id o.fetch1).1 ++ [Ev.setUser (some d)]) ++
          [Ev.setLoading false])) = 1 := by
      simp [countFetchCalls, countFetchCalls_append, countFetchCalls_pre,
        fetchUserProfile_countFetch]
    rw [hc]
    refine ⟨by omega, by simp, by omega, by simp, by simp, ?_⟩
    rw [runTrace_cons]
    apply runTrace_loading_setFalse
  · rcases hr : retryCond i with _ | _
    · have hT := onAuthChange_fetch_err_noretry ev su o i h1 h2 hf1 hr
      rw [hT]
      have hc : countFetchCalls (Ev.setLoading true ::
          ((if ev = "SIGNED_UP" then [Ev.sleep 1000] else []) ++
            ((fetchUserProfile su.id o.fetch1).1 ++ [Ev.setUser none]) ++
            [Ev.setLoading false])) = 1 := by
        simp [countFetchCalls, countFetchCalls_append, countFetchCalls_pre,
          fetchUserProfile_countFetch]
      rw [hc]
      refine ⟨by omega, ?_, by omega, ?_, ?_, ?_⟩
      · constructor
        · rintro ⟨i2, heq, hri⟩
          injection heq with hii
          subst hii
          rw [hr] at hri
          exact absurd hri (by simp)
        · intro hcount
          exact absurd hcount (by omega)
      · rintro i2 hi2 hri
        refine ⟨rfl, ?_⟩
        rw [runTrace_cons]
        simp only [← List.append_assoc]
        apply runTrace_user_endpair
      · rintro i2 j hi2 hri hj
        injection hi2 with hii
        subst hii
        rw [hr] at hri
        exact absurd hri (by simp)
      · rw [runTrace_cons]
        apply runTrace_loading_setFalse
    · rcases hf2 : (fetchUserProfile su.id o.fetch2).2 with d2 | j
      · have hT := onAuthChange_fetch_err_retry_ok ev su o i d2 h1 h2 hf1 hr hf2
        rw [hT]
        have hc : countFetchCalls (Ev.setLoading true ::
            ((if ev = "SIGNED_UP" then [Ev.sleep 1000] else []) ++
              ((fetchUserProfile su.id o.fetch1).1 ++ [Ev.sleep 2000] ++
                (fetchUserProfile su.id o.fetch2).1 ++ [Ev.setUser (some d2)]) ++
              [Ev.setLoading false])) = 2 := by
          simp [countFetchCalls, countFetchCalls_append, countFetchCalls_pre,
            fetchUserProfile_countFetch]
        rw [hc]
        refine ⟨by omega, ?_, ?_, ?_, ?_, ?_⟩
        · exact ⟨fun _ => rfl, fun _ => ⟨i, rfl, hr⟩⟩
        · intro hcount
          simp [List.mem_append]
        · rintro i2 hi2 hri
          injection hi2 with hii
          subst hii
          rw [hr] at hri
          exact absurd hri (by simp)
        · rintro i2 j hi2 hri hj
          exact absurd hj (by simp)
        · rw [runTrace_cons]
          apply runTrace_loading_setFalse
      · have hT := onAuthChange_fetch_err_retry_err ev su o i j h1 h2 hf1 hr hf2
        rw [hT]
        have hc : countFetchCalls (Ev.setLoading true ::
            ((if ev = "SIGNED_UP" then [Ev.sleep 1000] else []) ++
              ((fetchUserProfile su.id o.fetch1).1 ++ [Ev.sleep 2000] ++
                (fetchUserProfile su.id o.fetch2).1 ++ [Ev.setUser none]) ++
              [Ev.setLoading false])) = 2 := by
          simp [countFetchCalls, countFetchCalls_append, countFetchCalls_pre,
            fetchUserProfile_countFetch]
        rw [hc]
        refine ⟨by omega, ?_, ?_, ?_, ?_, ?_⟩
        · exact ⟨fun _ => rfl, fun _ => ⟨i, rfl, hr⟩⟩
        · intro hcount
          simp [List.mem_append]
        · rintro i2 hi2 hri
          injection hi2 with hii
          subst hii
          rw [hr] at hri
          exact absurd hri (by simp)
        · rintro i2 j2 hi2 hri hj2
          rw [runTrace_cons]
          simp only [← List.append_assoc]
          apply runTrace_user_endpair
        · rw [runTrace_cons]
          apply runTrace_loading_setFalse

set_option maxHeartbeats 1000000 in
theorem signUp_storage_cases (rm : Bool) (o : SignUpOracle) :
    (signUp rm o).2 = .ok ∨ (signUp rm o).1.filter isStorageEv = [] := by
  rcases o with ⟨p, su, ins⟩
  simp only [signUp, rejectCatch]
  repeat' split
  all_goals first
    | exact Or.inl rfl
    | (refine Or.inr ?_
       simp [List.filter_append, testConnection_filterStorage, handleError_filterStorage,
         isStorageEv]
       done)
    | simp_all

set_option maxHeartbeats 1000000 in
theorem signIn_storage_cases (rm : Bool) (o : SignInOracle) :
    (signIn rm o).2 = .ok ∨ (signIn rm o).1.filter isStorageEv = [] := by
  rcases o with ⟨p, si⟩
  simp only [signIn, rejectCatch]
  repeat' split
  all_goals first
    | exact Or.inl rfl
    | (refine Or.inr ?_
       simp [List.filter_append, testConnection_filterStorage, handleError_filterStorage,
         isStorageEv]
       done)
    | simp_all

set_option maxHeartbeats 1000000 in
theorem signUp_split (rm : Bool) (o : SignUpOracle) :
    ∃ pre post, (signUp rm o).1 = pre ++ post ∧ pre.filter isStorageEv = []
      ∧ post.filter isCallEv = [] := by
  rcases o with ⟨p, su, ins⟩
  simp only [signUp, rejectCatch]
  split
  · exact ⟨_, [], (List.append_nil _).symm, by
      simp [List.filter_append, testConnection_filterStorage, handleError_filterStorage,
        isStorageEv], rfl⟩
  · rcases su with ⟨ue, ee⟩ | e | e
    · try dsimp only
      rcases ee with _ | err
      · try dsimp only
        rcases ue with _ | u
        · exact ⟨_, [], (List.append_nil _).symm, by
            simp [List.filter_append, testConnection_filterStorage, handleError_filterStorage,
              isStorageEv], rfl⟩
        · try dsimp only
          rcases ins with pe | e2 | e2
          · try dsimp only
            rcases pe with _ | perr
            · refine ⟨[Ev.setLoading true, Ev.setLastError none] ++ (testConnection p).1 ++
                  [Ev.call .authSignUp, Ev.sleep 500, Ev.call .insertProfile],
                  (if rm then [Ev.storageSet "true"] else [Ev.storageRemove]) ++
                    [Ev.setLoading false],
                  by simp, by simp [List.filter_append, testConnection_filterStorage,
                    isStorageEv], by split <;> simp [isCallEv]⟩
            · exact ⟨_, [], (List.append_nil _).symm, by
                simp [List.filter_append, testConnection_filterStorage, handleError_filterStorage,
                  isStorageEv], rfl⟩
          · exact ⟨_, [], (List.append_nil _).symm, by
              simp [List.filter_append, testConnection_filterStorage, handleError_filterStorage,
                isStorageEv], rfl⟩
          · exact ⟨_, [], (List.append_nil _).symm, by
              simp [List.filter_append, testConnection_filterStorage, handleError_filterStorage,
                isStorageEv], rfl⟩
      · exact ⟨_, [], (List.append_nil _).symm, by
          simp [List.filter_append, testConnection_filterStorage, handleError_filterStorage,
            isStorageEv], rfl⟩
    · exact ⟨_, [], (List.append_nil _).symm, by
        simp [List.filter_append, testConnection_filterStorage, handleError_filterStorage,
          isStorageEv], rfl⟩
    · exact ⟨_, [], (List.append_nil _).symm, by
        simp [List.filter_append, testConnection_filterStorage, handleError_filterStorage,
          isStorageEv], rfl⟩

set_option maxHeartbeats 1000000 in
theorem signIn_split (rm : Bool) (o : SignInOracle) :
    ∃ pre post, (signIn rm o).1 = pre ++ post ∧ pre.filter isStorageEv = []
      ∧ post.filter isCallEv = [] := by
  rcases o with ⟨p, si⟩
  simp only [signIn, rejectCatch]
  split
  · exact ⟨_, [], (List.append_nil _).symm, by
      simp [List.filter_append, testConnection_filterStorage, handleError_filterStorage,
        isStorageEv], rfl⟩
  · rcases si with er | e | e
    · try dsimp only
      rcases er with _ | err
      · refine ⟨[Ev.setLoading true, Ev.setLastError none] ++ (testConnection p).1 ++
            [Ev.call .signInWithPassword],
            (if rm then [Ev.storageSet "true"] else [Ev.storageRemove]) ++
              [Ev.setLoading false],
            by simp, by simp [List.filter_append, testConnection_filterStorage,
              isStorageEv], by split <;> simp [isCallEv]⟩
      · exact ⟨_, [], (List.append_nil _).symm, by
          simp [List.filter_append, testConnection_filterStorage, handleError_filterStorage,
            isStorageEv], rfl⟩
    · exact ⟨_, [], (List.append_nil _).symm, by
        simp [List.filter_append, testConnection_filterStorage, handleError_filterStorage,
          isStorageEv], rfl⟩
    · exact ⟨_, [], (List.append_nil _).symm, by
        simp [List.filter_append, testConnection_filterStorage, handleError_filterStorage,
          isStorageEv], rfl⟩

/-- C9: `signUp` and `signIn` touch the persisted remember-me flag
only after every backend step (probe, backend auth call, and for
sign-up the profile insert) has succeeded: whenever the action throws,
its trace contains no storage write at all — the stored flag is
unchanged on every error path — and in every run whatever storage
writes exist sit in a suffix containing no backend call. -/
theorem rememberFlagOnFailure (rm rm2 : Bool) (o1 : SignUpOracle) (o2 : SignInOracle) (s : St) :
    (∀ te, (signUp rm o1).2 = .thrown te → (signUp rm o1).1.filter isStorageEv = []
      ∧ (runTrace s (signUp rm o1).1).rememberStore = s.rememberStore)
  ∧ (∃ pre post, (signUp rm o1).1 = pre ++ post ∧ pre.filter isStorageEv = []
      ∧ post.filter isCallEv = [])
  ∧ (∀ te, (signIn rm2 o2).2 = .thrown te → (signIn rm2 o2).1.filter isStorageEv = []
      ∧ (runTrace s (signIn rm2 o2).1).rememberStore = s.rememberStore)
  ∧ (∃ pre post, (signIn rm2 o2).1 = pre ++ post ∧ pre.filter isStorageEv = []
      ∧ post.filter isCallEv = []) := by
  refine ⟨?_, signUp_split rm o1, ?_, signIn_split rm2 o2⟩
  · intro te ht
    rcases signUp_storage_cases rm o1 with hok | hst
    · rw [hok] at ht
      exact absurd ht (by simp)
    · exact ⟨hst, runTrace_store _ hst s⟩
  · intro te ht
    rcases signIn_storage_cases rm2 o2 with hok | hst
    · rw [hok] at ht
      exact absurd ht (by simp)
    · exact ⟨hst, runTrace_store _ hst s⟩

theorem signUp_probeFail (rm : Bool) (o : SignUpOracle)
    (h : (testConnection o.probe).2 = false) :
    signUp rm o =
      ([Ev.setLoading true, Ev.setLastError none] ++ (testConnection o.probe).1 ++
        [Ev.setLastError (some ⟨.unknown, "Unable to connect to authentication service"⟩)] ++
        [Ev.setLoading false],
       .thrown (.classified ⟨.unknown, "Unable to connect to authentication service"⟩)) := by
  have hu : handleError ⟨some "Unable to connect to authentication service", none, none⟩ =
      ([Ev.setLastError (some ⟨.unknown, "Unable to connect to authentication service"⟩)],
       ⟨.unknown, "Unable to connect to authentication service"⟩) := by decide
  simp only [signUp]
  rw [if_pos h, hu]

theorem signIn_probeFail (rm : Bool) (o : SignInOracle)
    (h : (testConnection o.probe).2 = false) :
    signIn rm o =
      ([Ev.setLoading true, Ev.setLastError none] ++ (testConnection o.probe).1 ++
        [Ev.setLastError (some ⟨.unknown, "Unable to connect to authentication service"⟩)] ++
        [Ev.setLoading false],
       .thrown (.classified ⟨.unknown, "Unable to connect to authentication service"⟩)) := by
  have hu : handleError ⟨some "Unable to connect to authentication service", none, none⟩ =
      ([Ev.setLastError (some ⟨.unknown, "Unable to connect to authentication service"⟩)],
       ⟨.unknown, "Unable to connect to authentication service"⟩) := by decide
  simp only [signIn]
  rw [if_pos h, hu]

theorem resetPassword_probeFail (o : ResetOracle)
    (h : (testConnection o.probe).2 = false) :
    resetPassword o =
      ([Ev.setIsResettingPassword true, Ev.setResetPasswordError none, Ev.setLastError none] ++
        (testConnection o.probe).1 ++
        [Ev.setLastError (some ⟨.unknown, "Unable to connect to authentication service"⟩)] ++
        [Ev.setIsResettingPassword false,
         Ev.setResetPasswordError (some "Unable to connect to authentication service")],
       .thrown (.classified ⟨.unknown, "Unable to connect to authentication service"⟩)) := by
  have hu : handleError ⟨some "Unable to connect to authentication service", none, none⟩ =
      ([Ev.setLastError (some ⟨.unknown, "Unable to connect to authentication service"⟩)],
       ⟨.unknown, "Unable to connect to authentication service"⟩) := by decide
  simp only [resetPassword]
  rw [if_pos h, hu]

/-- C3 (amended): when the connection probe fails at the start of
`signUp`, `signIn` or `resetPassword`, no backend call beyond the
probe itself is issued and `connectionStatus` ends `disconnected`, as
the claim states — but the thrown error is classified `Unknown` with
message `Unable to connect to authentication service` (that message
matches no classifier branch), not `NetworkError`. -/
theorem probeFailAbort_amended (rm : Bool) (o1 : SignUpOracle) (o2 : SignInOracle)
    (o3 : ResetOracle) (s : St)
    (h1 : (testConnection o1.probe).2 = false)
    (h2 : (testConnection o2.probe).2 = false)
    (h3 : (testConnection o3.probe).2 = false) :
    (signUp rm o1).2 =
        .thrown (.classified ⟨.unknown, "Unable to connect to authentication service"⟩)
  ∧ (signUp rm o1).1.filter isCallEv = [Ev.call .getSession]
  ∧ (runTrace s (signUp rm o1).1).connectionStatus = .disconnected
  ∧ (signIn rm o2).2 =
        .thrown (.classified ⟨.unknown, "Unable to connect to authentication service"⟩)
  ∧ (signIn rm o2).1.filter isCallEv = [Ev.call .getSession]
  ∧ (runTrace s (signIn rm o2).1).connectionStatus = .disconnected
  ∧ (resetPassword o3).2 =
        .thrown (.classified ⟨.unknown, "Unable to connect to authentication service"⟩)
  ∧ (resetPassword o3).1.filter isCallEv = [Ev.call .getSession]
  ∧ (runTrace s (resetPassword o3).1).connectionStatus = .disconnected := by
  refine ⟨?_, ?_, ?_, ?_, ?_, ?_, ?_, ?_, ?_⟩
  · rw [signUp_probeFail rm o1 h1]
  · rw [signUp_probeFail rm o1 h1]
    simp [List.filter_append, testConnection_filterCall, isCallEv]
  · rw [signUp_probeFail rm o1 h1, testConnection_eq o1.probe, h1]
    simp [runTrace_append, runTrace_cons, runTrace_nil, applyEv, runTrace]
  · rw [signIn_probeFail rm o2 h2]
  · rw [signIn_probeFail rm o2 h2]
    simp [List.filter_append, testConnection_filterCall, isCallEv]
  · rw [signIn_probeFail rm o2 h2, testConnection_eq o2.probe, h2]
    simp [runTrace_append, runTrace_cons, runTrace_nil, applyEv, runTrace]
  · rw [resetPassword_probeFail o3 h3]
  · rw [resetPassword_probeFail o3 h3]
    simp [List.filter_append, testConnection_filterCall, isCallEv]
  · rw [resetPassword_probeFail o3 h3, testConnection_eq o3.probe, h3]
    simp [runTrace_append, runTrace_cons, runTrace_nil, applyEv, runTrace]

/-- C5: `handleError` applies its classification rules in
first-match-wins source order — network message, invalid credentials,
unconfirmed email, duplicate registration, row-security code, HTTP
status in {500,502,503,504}, otherwise Unknown with the raw message
passed through verbatim (or the generic fallback when the message is
absent or empty, i.e. falsy) — it sets `connectionStatus =
Disconnected` exactly for the NetworkError and ServerUnavailable
kinds, leaves every other state field untouched, and its last write
records the classified error into `lastError` before returning it. -/
theorem classifyOrder (e : RawError) (s : St) :
    (handleError e).1.getLast? = some (Ev.setLastError (some (handleError e).2))
  ∧ runTrace s (handleError e).1 =
      { s with
        lastError := some (handleError e).2,
        connectionStatus :=
          if (handleError e).2.kind = .networkError ∨ (handleError e).2.kind = .serverUnavailable
          then .disconnected else s.connectionStatus }
  ∧ (msgHasNet e = true → (handleError e).2.kind = .networkError)
  ∧ (msgHasNet e = false → msgInvalidCred e = true →
      (handleError e).2.kind = .invalidCredentials)
  ∧ (msgHasNet e = false → msgInvalidCred e = false → msgNotConfirmed e = true →
      (handleError e).2.kind = .emailNotConfirmed)
  ∧ (msgHasNet e = false → msgInvalidCred e = false → msgNotConfirmed e = false →
      msgAlreadyReg e = true → (handleError e).2.kind = .userAlreadyExists)
  ∧ (msgHasNet e = false → msgInvalidCred e = false → msgNotConfirmed e = false →
      msgAlreadyReg e = false → msgRls e = true → (handleError e).2.kind = .permissionDenied)
  ∧ (msgHasNet e = false → msgInvalidCred e = false → msgNotConfirmed e = false →
      msgAlreadyReg e = false → msgRls e = false → status5xx e = true →
      (handleError e).2.kind = .serverUnavailable)
  ∧ (msgHasNet e = false → msgInvalidCred e = false → msgNotConfirmed e = false →
      msgAlreadyReg e = false → msgRls e = false → status5xx e = false →
      (handleError e).2.kind = .unknown
      ∧ (handleError e).2.message =
          (match e.message with
           | some m => if m = "" then genericErrMsg else m
           | none => genericErrMsg)) := by
  refine ⟨?_, handleError_run s e, ?_, ?_, ?_, ?_, ?_, ?_, ?_⟩ <;>
  · unfold handleError
    repeat' split
    all_goals simp_all [List.getLast?]

/-- C7: `testConnection` first writes `connectionStatus = Checking`;
if the health call rejects it ends `Disconnected` and returns false;
if the call reports an error whose message marks it network-class it
ends `Disconnected` and returns false; on any other response —
no error, or a non-network error — it ends `Connected` and returns
true. -/
theorem probeStatus (o : JsRes GetSessionRes) (s : St) :
    (testConnection o).1.take 1 = [Ev.setConnectionStatus .checking]
  ∧ (∀ e, (o = .exnError e ∨ o = .exnOther e) → (testConnection o).2 = false
      ∧ (runTrace s (testConnection o).1).connectionStatus = .disconnected)
  ∧ (∀ r err, o = .val r → r.error = some err → msgHasNet err = true →
      (testConnection o).2 = false
      ∧ (runTrace s (testConnection o).1).connectionStatus = .disconnected)
  ∧ (∀ r, o = .val r →
      (r.error = none ∨ ∃ err, r.error = some err ∧ msgHasNet err = false) →
      (testConnection o).2 = true
      ∧ (runTrace s (testConnection o).1).connectionStatus = .connected) := by
  refine ⟨?_, ?_, ?_, ?_⟩
  · rw [testConnection_eq o]
    rfl
  · rintro e (rfl | rfl) <;>
      exact ⟨rfl, by simp [testConnection, runTrace, applyEv]⟩
  · rintro r err rfl herr hnet
    constructor
    · simp [testConnection, herr, hnet]
    · simp [testConnection, herr, hnet, runTrace, applyEv]
  · rintro r rfl (hnone | ⟨err, herr, hnet⟩)
    · constructor
      · simp [testConnection, hnone]
      · simp [testConnection, hnone, runTrace, applyEv]
    · constructor
      · simp [testConnection, herr, hnet]
      · simp [testConnection, herr, hnet, runTrace, applyEv]

/-- C6: a bootstrap run whose probe succeeds and whose persisted
remember-me flag is absent or not the string `true` forces the backend
sign-out, performs no backend session lookup beyond the health probe
(the only calls in its trace are the probe `getSession` and the forced
`signOut`), and terminates with `user = null` and `loading = false`,
whatever the prior backend session was and even if the forced
sign-out rejects. -/
theorem bootstrapNoRemember (r : Option String) (bo : BootOracle) (s : St)
    (h1 : (testConnection bo.probe).2 = true) (h2 : (r == some "true") = false) :
    Ev.call .authSignOut ∈ initAuth true true true true r bo
  ∧ (initAuth true true true true r bo).filter isCallEv =
      [Ev.call .getSession, Ev.call .authSignOut]
  ∧ (runTrace s (initAuth true true true true r bo)).user = none
  ∧ (runTrace s (initAuth true true true true r bo)).loading = false := by
  rcases bo with ⟨p, so, se, fs⟩
  simp only [initAuth]
  rw [if_neg (by simp [h1]), if_pos (by simp [h2])]
  rcases so with u | e | e
  all_goals refine ⟨?_, ?_, ?_, ?_⟩
  all_goals first
    | (simp [List.mem_append]
       done)
    | (simp [List.filter_append, testConnection_filterCall, handleError_filterCall, isCallEv]
       done)
    | (simp [runTrace_append, handleError_run, runTrace_cons, runTrace_nil, applyEv, runTrace]
       done)

/-- Witness instantiating `retryPolicy_amended` at a concrete
`SIGNED_IN` event whose both fetches fail with a `0 rows` message. -/
theorem retryPolicy_amended_witness :
    (runTrace initialSt (onAuthChange true "SIGNED_IN" (some ⟨some ⟨"u9"⟩⟩)
        ⟨⟨none, some ⟨some "Results contain 0 rows", none, none⟩⟩,
         ⟨none, some ⟨some "Results contain 0 rows", none, none⟩⟩⟩)).user = none
  ∧ (runTrace initialSt (onAuthChange true "SIGNED_IN" (some ⟨some ⟨"u9"⟩⟩)
        ⟨⟨none, some ⟨some "Results contain 0 rows", none, none⟩⟩,
         ⟨none, some ⟨some "Results contain 0 rows", none, none⟩⟩⟩)).loading = false :=
  ⟨(retryPolicy_amended "SIGNED_IN" ⟨"u9"⟩
      ⟨⟨none, some ⟨some "Results contain 0 rows", none, none⟩⟩,
       ⟨none, some ⟨some "Results contain 0 rows", none, none⟩⟩⟩ initialSt
      (by decide) (by decide)).2.2.2.2.1
      ⟨.unknown, "Results contain 0 rows"⟩ ⟨.unknown, "Results contain 0 rows"⟩
      (by decide) (by decide) (by decide),
   (retryPolicy_amended "SIGNED_IN" ⟨"u9"⟩
      ⟨⟨none, some ⟨some "Results contain 0 rows", none, none⟩⟩,
       ⟨none, some ⟨some "Results contain 0 rows", none, none⟩⟩⟩ initialSt
      (by decide) (by decide)).2.2.2.2.2⟩

/-- Witness instantiating `probeFailAbort_amended` at oracles whose
probe rejects. -/
theorem probeFailAbort_witness :
    (signUp false ⟨.exnError ⟨none, none, none⟩, .val ⟨none, none⟩, .val none⟩).2 =
      .thrown (.classified ⟨.unknown, "Unable to connect to authentication service"⟩)
  ∧ (runTrace initialSt
      (signIn false ⟨.exnError ⟨none, none, none⟩, .val none⟩).1).connectionStatus =
      .disconnected :=
  ⟨(probeFailAbort_amended false
      ⟨.exnError ⟨none, none, none⟩, .val ⟨none, none⟩, .val none⟩
      ⟨.exnError ⟨none, none, none⟩, .val none⟩
      ⟨.exnError ⟨none, none, none⟩, .val none⟩ initialSt
      (by decide) (by decide) (by decide)).1,
   (probeFailAbort_amended false
      ⟨.exnError ⟨none, none, none⟩, .val ⟨none, none⟩, .val none⟩
      ⟨.exnError ⟨none, none, none⟩, .val none⟩
      ⟨.exnError ⟨none, none, none⟩, .val none⟩ initialSt
      (by decide) (by decide) (by decide)).2.2.2.2.2.1⟩

/-- Witness instantiating `classifyOrder` at a raw error carrying
HTTP status 503 and a message matching no earlier branch. -/
theorem classifyOrder_witness :
    (handleError ⟨some "boom", none, some 503⟩).2.kind = .serverUnavailable
  ∧ (runTrace initialSt (handleError ⟨some "boom", none, some 503⟩).1).lastError =
      some (handleError ⟨some "boom", none, some 503⟩).2 :=
  ⟨(classifyOrder ⟨some "boom", none, some 503⟩ initialSt).2.2.2.2.2.2.2.1
      (by decide) (by decide) (by decide) (by decide) (by decide) (by decide),
   by rw [(classifyOrder ⟨some "boom", none, some 503⟩ initialSt).2.1]⟩

/-- Witness instantiating `bootstrapNoRemember` with a successful
probe and no stored flag. -/
theorem bootstrapNoRemember_witness :
    (runTrace initialSt (initAuth true true true true none
      ⟨.val ⟨none, none⟩, .val (), .val ⟨none, none⟩, ⟨none, none⟩⟩)).user = none
  ∧ (runTrace initialSt (initAuth true true true true none
      ⟨.val ⟨none, none⟩, .val (), .val ⟨none, none⟩, ⟨none, none⟩⟩)).loading = false :=
  ⟨(bootstrapNoRemember none ⟨.val ⟨none, none⟩, .val (), .val ⟨none, none⟩, ⟨none, none⟩⟩
      initialSt (by decide) (by decide)).2.2.1,
   (bootstrapNoRemember none ⟨.val ⟨none, none⟩, .val (), .val ⟨none, none⟩, ⟨none, none⟩⟩
      initialSt (by decide) (by decide)).2.2.2⟩

/-- Witness instantiating `probeStatus` at a clean `getSession`
response. -/
theorem probeStatus_witness :
    (testConnection (.val ⟨none, none⟩)).2 = true
  ∧ (runTrace initialSt (testConnection (.val ⟨none, none⟩)).1).connectionStatus =
      .connected :=
  (probeStatus (.val ⟨none, none⟩) initialSt).2.2.2 ⟨none, none⟩ rfl (Or.inl rfl)

/-- Witness instantiating `rememberFlagOnFailure` at a `signUp` run
whose probe rejects, so the action throws. -/
theorem rememberFlagOnFailure_witness :
    (signUp false ⟨.exnError ⟨none, none, none⟩, .val ⟨none, none⟩, .val none⟩).1.filter
        isStorageEv = []
  ∧ (runTrace initialSt
      (signUp false ⟨.exnError ⟨none, none, none⟩, .val ⟨none, none⟩, .val none⟩).1).rememberStore
      = initialSt.rememberStore :=
  (rememberFlagOnFailure false false
      ⟨.exnError ⟨none, none, none⟩, .val ⟨none, none⟩, .val none⟩
      ⟨.val ⟨none, none⟩, .val none⟩ initialSt).1
    (.classified ⟨.unknown, "Unable to connect to authentication service"⟩) (by decide)
